import Mathlib

/-!
Verification of the activation-time bootstrap in
`src/extension/rn-extension.ts` (vscode-react-native).

The module is embedded shallowly: every observable effect (command
registration, file-system call, notification, config mutation, child-process
invocation) becomes an `Event`; each promise chain of the source becomes the
list of its events in chain order, and concurrent chains are related by an
`Interleave` predicate.  File-system collaborators that live outside the
visible source are modelled from the spec where noted.
-/

/-- The slice of `process.env` the module reads. -/
structure Env where
  VSCODE_TSJS : Option String
  HOME : Option String
  USERPROFILE : Option String
deriving DecidableEq

/-- JavaScript truthiness of an environment variable: absent and the empty
string are falsy, every other string is truthy (`!process.env.X`). -/
def envTruthy : Option String → Bool
  | none => false
  | some s => !(s == "")

/-- JavaScript `a || b` on possibly-absent environment strings. -/
def jsOr (a b : Option String) : Option String :=
  match a with
  | some s => if s == "" then b else some s
  | none => b

/-- Observable effects of the module, in the order their operations complete. -/
inductive Event where
  | registerCommand (commandName : String) (handlerMethod : String) (handlerRoot : String)
  | pushSubscription (resource : String)
  | ensureDirectory (dirPath : String)
  | ensureFileWithContents (filePath : String) (contents : String)
  | showErrorMessage (msg : String)
  | showInformationMessage (msg : String) (button : Option String)
  | allowJs (value : Bool)
  | addExcludePaths (paths : List String)
  | copyRecursive (source : String) (target : String)
  | existsProbe (probedPath : String) (result : Bool)
  | typescriptTsdk (libPath : String)
  | execCommand (cmd : String)
deriving DecidableEq

/-- Workspace file-system state: a set of directories and an association list
of files (most recent write first). -/
structure FSState where
  dirs : List String
  files : List (String × String)
deriving DecidableEq

/-- Modelled from the spec: `FileSystem.ensureDirectory` (the `FileSystem`
collaborator of `src/common/node/fileSystem` is not under `src/`) creates the
directory if absent and is a no-op, not an error, when it already exists. -/
def ensureDir (fs : FSState) (p : String) : FSState :=
  if p ∈ fs.dirs then fs else { fs with dirs := p :: fs.dirs }

/-- Modelled from the spec: `FileSystem.ensureFileWithContents` overwrites the
file unconditionally with the given contents (no diffing, no backup). -/
def setFile (fs : FSState) (p c : String) : FSState :=
  { fs with files := (p, c) :: fs.files }

/-- Contents of a file in the modelled file system (latest write wins). -/
def getFile (fs : FSState) (p : String) : Option String :=
  (fs.files.find? (fun kv => kv.1 == p)).map (fun kv => kv.2)

/-- Lower-case hexadecimal digit. -/
def hexDigit (n : Nat) : Char :=
  if n < 10 then Char.ofNat (48 + n) else Char.ofNat (87 + n)

/-- `JSON.stringify` escaping of a single character. -/
def jsonEscapeChar (c : Char) : String :=
  if c = '"' then "\\\""
  else if c = '\\' then "\\\\"
  else if c = Char.ofNat 8 then "\\b"
  else if c = Char.ofNat 12 then "\\f"
  else if c = '\n' then "\\n"
  else if c = Char.ofNat 13 then "\\r"
  else if c = '\t' then "\\t"
  else if c.toNat < 32 then
    "\\u00" ++ String.singleton (hexDigit (c.toNat / 16)) ++
      String.singleton (hexDigit (c.toNat % 16))
  else String.singleton c

/-- `JSON.stringify` of a string value. -/
def jsonStringify (s : String) : String :=
  "\"" ++ String.join (s.data.map jsonEscapeChar) ++ "\""

/-- The generated stub source, transcribing the template literal of
`setupReactNativeDebugger` (`{` and `}` written as \x7b / \x7d escapes). -/
def debuggerEntryCode (extensionName extensionVersionNumber launcherPath : String) : String :=
  "// This file is automatically generated by " ++ extensionName ++ "@" ++
    extensionVersionNumber ++
    "\n// Please do not modify it manually. All changes will be lost." ++
    "\ntry \x7b\n    var path = require(\"path\");\n    var Launcher = require(" ++
    jsonStringify launcherPath ++
    ").Launcher;\n    new Launcher(path.resolve(__dirname, \"..\")).launch();\n\x7d catch (e) \x7b\n    throw new Error(\"Unable to launch application. Try deleting .vscode/launchReactNative.js and restarting vscode.\");\n\x7d"

/-- The two header lines the spec requires the stub to begin with. -/
def stubHeader (extensionName extensionVersionNumber : String) : String :=
  "// This file is automatically generated by " ++ extensionName ++ "@" ++
    extensionVersionNumber ++
    "\n// Please do not modify it manually. All changes will be lost."

/-- One run of `setupReactNativeDebugger` over a file-system state.
`dirFault` / `writeFault` inject the error (if any) of the two file-system
steps; the `.catch` of the source surfaces the first failure as a single
`showErrorMessage` with the error's own message. -/
def setupReactNativeDebuggerRun (rootPath extensionName extensionVersionNumber launcherPath : String)
    (fs : FSState) (dirFault writeFault : Option String) : FSState × List Event :=
  let vscodeFolder := rootPath ++ "/.vscode"
  let debugStub := vscodeFolder ++ "/launchReactNative.js"
  let contents := debuggerEntryCode extensionName extensionVersionNumber launcherPath
  match dirFault with
  | some m => (fs, [Event.ensureDirectory vscodeFolder, Event.showErrorMessage m])
  | none =>
    let fs1 := ensureDir fs vscodeFolder
    match writeFault with
    | some m =>
        (fs1, [Event.ensureDirectory vscodeFolder,
               Event.ensureFileWithContents debugStub contents,
               Event.showErrorMessage m])
    | none =>
        (setFile fs1 debugStub contents,
         [Event.ensureDirectory vscodeFolder,
          Event.ensureFileWithContents debugStub contents])

/-- Contents carried by the file-write events of a trace. -/
def writtenContents (trace : List Event) : List String :=
  trace.filterMap (fun e => match e with
    | Event.ensureFileWithContents _ c => some c
    | _ => none)

/-- Messages of the error notifications of a trace. -/
def errorMessages (trace : List Event) : List String :=
  trace.filterMap (fun e => match e with
    | Event.showErrorMessage m => some m
    | _ => none)

theorem string_append_assoc (a b c : String) : a ++ b ++ c = a ++ (b ++ c) := by
  apply String.ext
  simp [String.data_append, List.append_assoc]

/-- C2: the stub's contents begin with the exact two generated-by header
lines with name and version substituted verbatim, and two successive runs of
the provisioner with unchanged identity and launcher path write byte-identical
contents. -/
theorem stub_header_exact_and_idempotent
    (extensionName extensionVersionNumber launcherPath rootPath : String) (fs : FSState) :
    (∃ rest, debuggerEntryCode extensionName extensionVersionNumber launcherPath =
        stubHeader extensionName extensionVersionNumber ++ rest) ∧
    (writtenContents (setupReactNativeDebuggerRun rootPath extensionName
        extensionVersionNumber launcherPath fs none none).2 =
      writtenContents (setupReactNativeDebuggerRun rootPath extensionName
        extensionVersionNumber launcherPath
        (setupReactNativeDebuggerRun rootPath extensionName extensionVersionNumber
          launcherPath fs none none).1 none none).2 ∧
     writtenContents (setupReactNativeDebuggerRun rootPath extensionName
        extensionVersionNumber launcherPath fs none none).2 =
      [debuggerEntryCode extensionName extensionVersionNumber launcherPath]) := by
  refine ⟨⟨"\ntry \x7b\n    var path = require(\"path\");\n    var Launcher = require(" ++
    jsonStringify launcherPath ++
    ").Launcher;\n    new Launcher(path.resolve(__dirname, \"..\")).launch();\n\x7d catch (e) \x7b\n    throw new Error(\"Unable to launch application. Try deleting .vscode/launchReactNative.js and restarting vscode.\");\n\x7d",
    ?_⟩, ?_, ?_⟩
  · simp only [debuggerEntryCode, stubHeader, string_append_assoc]
  · simp [setupReactNativeDebuggerRun, writtenContents]
  · simp [setupReactNativeDebuggerRun, writtenContents]

/-- C3: the provisioner ensures the `.vscode` directory first, then writes the
stub unconditionally (no diffing — any prior contents are replaced); a failure
of either step is caught and surfaced as exactly one error notification whose
text is the underlying error's message; there is at most one write attempt (no
retry) and a directory created before a write failure stays in place. -/
theorem stub_provisioner_error_handling
    (rootPath n v lp : String) (fs : FSState) (dirFault writeFault : Option String) :
    (setupReactNativeDebuggerRun rootPath n v lp fs dirFault writeFault).2.head? =
      some (Event.ensureDirectory (rootPath ++ "/.vscode")) ∧
    (dirFault = none → writeFault = none →
      errorMessages (setupReactNativeDebuggerRun rootPath n v lp fs dirFault writeFault).2 = [] ∧
      getFile (setupReactNativeDebuggerRun rootPath n v lp fs dirFault writeFault).1
          (rootPath ++ "/.vscode" ++ "/launchReactNative.js") =
        some (debuggerEntryCode n v lp) ∧
      (rootPath ++ "/.vscode") ∈
        (setupReactNativeDebuggerRun rootPath n v lp fs dirFault writeFault).1.dirs) ∧
    (∀ m, dirFault = some m →
      errorMessages (setupReactNativeDebuggerRun rootPath n v lp fs dirFault writeFault).2 = [m] ∧
      writtenContents (setupReactNativeDebuggerRun rootPath n v lp fs dirFault writeFault).2 = [] ∧
      (setupReactNativeDebuggerRun rootPath n v lp fs dirFault writeFault).1 = fs) ∧
    (∀ m, dirFault = none → writeFault = some m →
      errorMessages (setupReactNativeDebuggerRun rootPath n v lp fs dirFault writeFault).2 = [m] ∧
      (rootPath ++ "/.vscode") ∈
        (setupReactNativeDebuggerRun rootPath n v lp fs dirFault writeFault).1.dirs ∧
      (setupReactNativeDebuggerRun rootPath n v lp fs dirFault writeFault).1.files = fs.files) ∧
    (writtenContents (setupReactNativeDebuggerRun rootPath n v lp fs dirFault writeFault).2).length ≤ 1 := by
  refine ⟨?_, ?_, ?_, ?_, ?_⟩
  · cases dirFault <;> cases writeFault <;> simp [setupReactNativeDebuggerRun]
  · rintro rfl rfl
    refine ⟨by simp [setupReactNativeDebuggerRun, errorMessages], ?_, ?_⟩
    · simp [setupReactNativeDebuggerRun, getFile, setFile]
    · by_cases hmem : (rootPath ++ "/.vscode") ∈ fs.dirs <;>
        simp [setupReactNativeDebuggerRun, ensureDir, setFile, hmem]
  · rintro m rfl
    simp [setupReactNativeDebuggerRun, errorMessages, writtenContents]
  · rintro m rfl rfl
    refine ⟨by simp [setupReactNativeDebuggerRun, errorMessages], ?_, ?_⟩
    · by_cases hmem : (rootPath ++ "/.vscode") ∈ fs.dirs <;>
        simp [setupReactNativeDebuggerRun, ensureDir, hmem]
    · by_cases hmem : (rootPath ++ "/.vscode") ∈ fs.dirs <;>
        simp [setupReactNativeDebuggerRun, ensureDir, hmem]
  · cases dirFault <;> cases writeFault <;> simp [setupReactNativeDebuggerRun, writtenContents]

/-- Witness for C3 at a concrete input: a write failure after a successful
directory creation yields exactly one error notification and keeps the
directory. -/
theorem stub_provisioner_error_handling_witness :
    errorMessages (setupReactNativeDebuggerRun "/proj" "rn" "0.1.0" "/ext/launcher.js"
        ⟨[], []⟩ none (some "EACCES")).2 = ["EACCES"] ∧
    ("/proj" ++ "/.vscode") ∈ (setupReactNativeDebuggerRun "/proj" "rn" "0.1.0"
        "/ext/launcher.js" ⟨[], []⟩ none (some "EACCES")).1.dirs := by
  have h := stub_provisioner_error_handling "/proj" "rn" "0.1.0" "/ext/launcher.js"
    ⟨[], []⟩ none (some "EACCES")
  exact ⟨(h.2.2.2.1 "EACCES" rfl rfl).1, (h.2.2.2.1 "EACCES" rfl rfl).2.1⟩

/-- One run of `installTypescriptNext`.  `extensionRoot` stands for
`path.resolve(__dirname, "..", "..")` (the extension's install root) and
`libExists` is the result of the existence probe of the destination library
subpath.  The `let p` transcribes the dead read of `HOME`/`USERPROFILE`. -/
def installTypescriptNextTrace (rootPath extensionRoot : String) (env : Env)
    (libExists : Bool) : List Event :=
  let typeScriptNextSource := extensionRoot ++ "/TypescriptNext"
  let typeScriptNextDest := rootPath ++ "/.vscode"
  let typeScriptNextLibPath := typeScriptNextDest ++ "/typescript" ++ "/lib"
  let p := jsOr env.HOME env.USERPROFILE
  Event.existsProbe typeScriptNextLibPath libExists ::
    (if libExists then [] else
      [Event.copyRecursive typeScriptNextSource typeScriptNextDest]) ++
    [Event.typescriptTsdk typeScriptNextLibPath]

/-- The platform-specific persistent-env-setter command chosen by
`enableSalsa`: the branch recognizes exactly the names `"Darwin"` and
`"Windows"` and leaves the command string empty for every other platform. -/
def salsaEnvCommand (osType : String) : String :=
  if osType = "Darwin" then "launchctl setenv VSCODE_TSJS 1"
  else if osType = "Windows" then "setx VSCODE_TSJS 1"
  else ""

/-- One run of `enableSalsa`: the whole body is guarded by a fresh check of
the `VSCODE_TSJS` flag; inside, the env-setter command is passed to
`childProcess.exec`, then `installTypescriptNext` runs, then the restart
notification is shown. -/
def enableSalsaTrace (env : Env) (osType rootPath extensionRoot : String)
    (libExists : Bool) : List Event :=
  if envTruthy env.VSCODE_TSJS then []
  else
    Event.execCommand (salsaEnvCommand osType) ::
      installTypescriptNextTrace rootPath extensionRoot env libExists ++
      [Event.showInformationMessage
        "Salsa intellisense for VS Code was turned on. Restart to enable it." none]

/-- C4: `installTypescriptNext` is idempotent — when the probed library
subpath exists no recursive copy is performed, when it is absent the bundled
tree is copied into `.vscode`, and in both cases the settings write recording
the resolved lib path is the final step of the run. -/
theorem install_typescript_next_idempotent (rootPath extensionRoot : String)
    (env : Env) (libExists : Bool) :
    (libExists = true → ∀ s d, Event.copyRecursive s d ∉
      installTypescriptNextTrace rootPath extensionRoot env libExists) ∧
    (libExists = false → Event.copyRecursive (extensionRoot ++ "/TypescriptNext")
        (rootPath ++ "/.vscode") ∈
      installTypescriptNextTrace rootPath extensionRoot env libExists) ∧
    (installTypescriptNextTrace rootPath extensionRoot env libExists).getLast? =
      some (Event.typescriptTsdk (rootPath ++ "/.vscode" ++ "/typescript" ++ "/lib")) := by
  refine ⟨?_, ?_, ?_⟩
  · rintro rfl s d
    simp [installTypescriptNextTrace]
  · rintro rfl
    simp [installTypescriptNextTrace]
  · cases libExists <;> simp [installTypescriptNextTrace]

/-- Witness for C4 at a concrete input: with the library path present no copy
happens and the settings write still closes the run. -/
theorem install_typescript_next_idempotent_witness :
    (∀ s d, Event.copyRecursive s d ∉
      installTypescriptNextTrace "/proj" "/ext" ⟨none, none, none⟩ true) ∧
    (installTypescriptNextTrace "/proj" "/ext" ⟨none, none, none⟩ true).getLast? =
      some (Event.typescriptTsdk ("/proj" ++ "/.vscode" ++ "/typescript" ++ "/lib")) :=
  ⟨(install_typescript_next_idempotent "/proj" "/ext" ⟨none, none, none⟩ true).1 rfl,
   (install_typescript_next_idempotent "/proj" "/ext" ⟨none, none, none⟩ true).2.2⟩

/-- C10: `installTypescriptNext` is insensitive to `HOME` / `USERPROFILE` —
two process environments that differ only in those two variables produce the
same run (the variables are read into a local that is never used). -/
theorem install_typescript_next_env_noninterference (rootPath extensionRoot : String)
    (env1 env2 : Env) (libExists : Bool)
    (h : env1.VSCODE_TSJS = env2.VSCODE_TSJS) :
    installTypescriptNextTrace rootPath extensionRoot env1 libExists =
      installTypescriptNextTrace rootPath extensionRoot env2 libExists := rfl

/-- Witness for C10: two concrete environments, one with `HOME` set and one
with `USERPROFILE` set, yield identical runs. -/
theorem install_typescript_next_env_noninterference_witness :
    installTypescriptNextTrace "/proj" "/ext" ⟨none, some "/home/a", none⟩ false =
      installTypescriptNextTrace "/proj" "/ext" ⟨none, none, some "C:/Users/b"⟩ false :=
  install_typescript_next_env_noninterference "/proj" "/ext"
    ⟨none, some "/home/a", none⟩ ⟨none, none, some "C:/Users/b"⟩ false rfl

/-- C9: `enableSalsa` re-checks the flag at its own entry — with `VSCODE_TSJS`
truthy in the process environment it performs no action at all: no child
process, no installation, no notification. -/
theorem enable_salsa_rechecks_flag (env : Env) (osType rootPath extensionRoot : String)
    (libExists : Bool) (h : envTruthy env.VSCODE_TSJS = true) :
    enableSalsaTrace env osType rootPath extensionRoot libExists = [] := by
  simp [enableSalsaTrace, h]

/-- Witness for C9 at a concrete truthy environment. -/
theorem enable_salsa_rechecks_flag_witness :
    enableSalsaTrace ⟨some "1", none, none⟩ "Darwin" "/proj" "/ext" false = [] :=
  enable_salsa_rechecks_flag ⟨some "1", none, none⟩ "Darwin" "/proj" "/ext" false rfl

/-- A TypeScript project configuration document: the allow-JavaScript flag,
the exclusion list, and the remaining fields it may carry. -/
structure TsConfig where
  allowJs : Bool
  exclude : List String
  otherFields : List (String × String)
deriving DecidableEq

/-- Modelled from the spec: `TsConfigHelper.allowJs` (the helper of
`src/extension/tsconfigHelper` is not under `src/`) sets the
allow-non-typed-language-files flag, leaving everything else unchanged. -/
def tsconfigAllowJs (value : Bool) (cfg : TsConfig) : TsConfig :=
  { cfg with allowJs := value }

/-- Modelled from the spec: `TsConfigHelper.addExcludePaths` appends each
given path that is not already present to the exclusion list, preserving the
existing entries and their order and every unrelated field. -/
def tsconfigAddExcludePaths (paths : List String) (cfg : TsConfig) : TsConfig :=
  { cfg with exclude := cfg.exclude ++ paths.filter (fun p => decide (p ∉ cfg.exclude)) }

/-- The document-level effect of the config chain of
`setupReactNativeIntellisense`: `allowJs(true)` then
`addExcludePaths(["node_modules"])`. -/
def chainConfigMutation (cfg : TsConfig) : TsConfig :=
  tsconfigAddExcludePaths ["node_modules"] (tsconfigAllowJs true cfg)

/-- C8: the config mutation sets the allow-JavaScript flag to true and appends
`"node_modules"` additively: `["a"]` becomes `["a", "node_modules"]`, an
already-present `"node_modules"` is not duplicated, the old exclusion list
survives as a prefix, and unrelated fields are untouched. -/
theorem config_mutation_additive (cfg : TsConfig) :
    (chainConfigMutation cfg).allowJs = true ∧
    (cfg.exclude = ["a"] → (chainConfigMutation cfg).exclude = ["a", "node_modules"]) ∧
    ("node_modules" ∈ cfg.exclude → (chainConfigMutation cfg).exclude = cfg.exclude) ∧
    cfg.exclude <+: (chainConfigMutation cfg).exclude ∧
    (chainConfigMutation cfg).otherFields = cfg.otherFields := by
  refine ⟨rfl, ?_, ?_, ?_, rfl⟩
  · intro h
    simp [chainConfigMutation, tsconfigAddExcludePaths, tsconfigAllowJs, h]
  · intro h
    simp [chainConfigMutation, tsconfigAddExcludePaths, tsconfigAllowJs, h]
  · exact ⟨_, rfl⟩

/-- Witness for C8 at a concrete document with exclusion list `["a"]`. -/
theorem config_mutation_additive_witness :
    (chainConfigMutation ⟨false, ["a"], [("target", "es6")]⟩).exclude =
      ["a", "node_modules"] :=
  (config_mutation_additive ⟨false, ["a"], [("target", "es6")]⟩).2.1 rfl

/-- An interleaving of two event sequences: the order within each component
sequence is preserved, steps of different sequences may alternate freely. -/
inductive Interleave : List Event → List Event → List Event → Prop where
  | nil : Interleave [] [] []
  | left {x xs ys zs} : Interleave xs ys zs → Interleave (x :: xs) ys (x :: zs)
  | right {y xs ys zs} : Interleave xs ys zs → Interleave xs (y :: ys) (y :: zs)

theorem Interleave.nil_left (ys : List Event) : Interleave [] ys ys := by
  induction ys with
  | nil => exact Interleave.nil
  | cons y ys ih => exact Interleave.right ih

theorem Interleave.append_both (xs ys : List Event) : Interleave xs ys (xs ++ ys) := by
  induction xs with
  | nil => simpa using Interleave.nil_left ys
  | cons x xs ih => exact Interleave.left ih

theorem Interleave.append_swap (xs ys : List Event) : Interleave xs ys (ys ++ xs) := by
  induction ys with
  | nil =>
      induction xs with
      | nil => exact Interleave.nil
      | cons x xs ih => exact Interleave.left ih
  | cons y ys ih => exact Interleave.right ih

theorem Interleave.mem_iff {xs ys zs : List Event} (h : Interleave xs ys zs) (a : Event) :
    a ∈ zs ↔ a ∈ xs ∨ a ∈ ys := by
  induction h with
  | nil => simp
  | left _ ih => simp [ih, or_assoc]
  | right _ ih =>
      simp only [List.mem_cons, ih]
      tauto

theorem Interleave.sublist_left {xs ys zs : List Event} (h : Interleave xs ys zs) :
    List.Sublist xs zs := by
  induction h with
  | nil => exact List.Sublist.refl []
  | left _ ih => exact ih.cons₂ _
  | right _ ih => exact ih.cons _

theorem Interleave.sublist_right {xs ys zs : List Event} (h : Interleave xs ys zs) :
    List.Sublist ys zs := by
  induction h with
  | nil => exact List.Sublist.refl []
  | left _ ih => exact ih.cons _
  | right _ ih => exact ih.cons₂ _

/-- The yes/no confirmation prompt of `setupReactNativeIntellisense`. -/
def promptEvent : Event :=
  Event.showInformationMessage "Turn on Salsa intellisense for VS Code?" (some "Yes")

/-- Chain A of `setupReactNativeIntellisense`: with the flag falsy, show the
prompt; if the user answers `"Yes"`, run `enableSalsa`. -/
def chainPrompt (env : Env) (osType rootPath extensionRoot : String)
    (response : Option String) (libExists : Bool) : List Event :=
  if envTruthy env.VSCODE_TSJS then []
  else
    promptEvent ::
      (if response = some "Yes" then
        enableSalsaTrace env osType rootPath extensionRoot libExists
      else [])

/-- The config sub-chain of `setupReactNativeIntellisense`:
`TsConfigHelper.allowJs(true)` then
`TsConfigHelper.addExcludePaths(["node_modules"])`. -/
def chainConfigEvents : List Event :=
  [Event.allowJs true, Event.addExcludePaths ["node_modules"]]

/-- The typings sub-chain of `setupReactNativeIntellisense`: mirror the
bundled ReactTypings tree into `.vscode/typings`, then `installTypescriptNext`. -/
def chainTypingsEvents (rootPath extensionRoot : String) (env : Env)
    (libExists : Bool) : List Event :=
  Event.copyRecursive (extensionRoot ++ "/ReactTypings")
      (rootPath ++ "/.vscode" ++ "/typings") ::
    installTypescriptNextTrace rootPath extensionRoot env libExists

/-- The possible completion orders of one run of
`setupReactNativeIntellisense`: the three promise chains it starts are
mutually unordered, each chain's own steps stay in order. -/
def IntellisenseTraces (env : Env) (osType rootPath extensionRoot : String)
    (response : Option String) (typingsLibExists salsaLibExists : Bool)
    (trace : List Event) : Prop :=
  ∃ bc, Interleave chainConfigEvents
      (chainTypingsEvents rootPath extensionRoot env typingsLibExists) bc ∧
    Interleave (chainPrompt env osType rootPath extensionRoot response salsaLibExists)
      bc trace

/-- Commands passed to `childProcess.exec` in a trace. -/
def execCommands (trace : List Event) : List String :=
  trace.filterMap (fun e => match e with
    | Event.execCommand c => some c
    | _ => none)

/-- C7: on opt-in the env-setter invocation is platform-branched on exactly
the two names `"Darwin"` and `"Windows"` — `launchctl setenv VSCODE_TSJS 1`
on the first, `setx VSCODE_TSJS 1` on the second — and for every other
platform the command string handed to the child process is empty, i.e. no
env-persistence command is issued. -/
theorem salsa_env_setter_platform_branch (env : Env) (osType rootPath extensionRoot : String)
    (libExists : Bool) (h : envTruthy env.VSCODE_TSJS = false) :
    execCommands (chainPrompt env osType rootPath extensionRoot (some "Yes") libExists) =
      [salsaEnvCommand osType] ∧
    (osType = "Darwin" → salsaEnvCommand osType = "launchctl setenv VSCODE_TSJS 1") ∧
    (osType = "Windows" → salsaEnvCommand osType = "setx VSCODE_TSJS 1") ∧
    (osType ≠ "Darwin" → osType ≠ "Windows" → salsaEnvCommand osType = "") := by
  refine ⟨?_, ?_, ?_, ?_⟩
  · cases libExists <;>
      simp [chainPrompt, promptEvent, enableSalsaTrace, installTypescriptNextTrace,
        execCommands, h]
  · rintro rfl
    rfl
  · rintro rfl
    rfl
  · intro h1 h2
    simp [salsaEnvCommand, h1, h2]

/-- Witness for C7 at a concrete unset flag and the unrecognized platform
`"Linux"`: the child process receives the empty command. -/
theorem salsa_env_setter_platform_branch_witness :
    execCommands (chainPrompt ⟨none, none, none⟩ "Linux" "/proj" "/ext" (some "Yes") true) =
      [salsaEnvCommand "Linux"] ∧ salsaEnvCommand "Linux" = "" :=
  ⟨(salsa_env_setter_platform_branch ⟨none, none, none⟩ "Linux" "/proj" "/ext" true rfl).1,
   (salsa_env_setter_platform_branch ⟨none, none, none⟩ "Linux" "/proj" "/ext" true rfl).2.2.2
     (by decide) (by decide)⟩

/-- C5: across every completion order of the bootstrapper, the confirmation
prompt appears exactly when the `VSCODE_TSJS` flag is falsy in the process
environment, on every platform. -/
theorem prompt_shown_iff_flag_unset (env : Env) (osType rootPath extensionRoot : String)
    (response : Option String) (typingsLibExists salsaLibExists : Bool) (trace : List Event)
    (h : IntellisenseTraces env osType rootPath extensionRoot response
      typingsLibExists salsaLibExists trace) :
    (envTruthy env.VSCODE_TSJS = true → promptEvent ∉ trace) ∧
    (envTruthy env.VSCODE_TSJS = false → promptEvent ∈ trace) := by
  obtain ⟨bc, h1, h2⟩ := h
  constructor
  · intro hv hmem
    rcases (h2.mem_iff promptEvent).1 hmem with hin | hin
    · simp [chainPrompt, hv] at hin
    · rcases (h1.mem_iff promptEvent).1 hin with hc | ht
      · simp [chainConfigEvents, promptEvent] at hc
      · cases typingsLibExists <;>
          simp [chainTypingsEvents, installTypescriptNextTrace, promptEvent] at ht
  · intro hv
    exact (h2.mem_iff promptEvent).2 (Or.inl (by simp [chainPrompt, hv]))

/-- Witness for C5: with the flag set to `"1"` a full completion order of the
two remaining chains contains no prompt. -/
theorem prompt_shown_iff_flag_unset_witness :
    promptEvent ∉
      chainConfigEvents ++ chainTypingsEvents "/proj" "/ext" ⟨some "1", none, none⟩ true := by
  have hv : IntellisenseTraces ⟨some "1", none, none⟩ "Darwin" "/proj" "/ext" none true true
      (chainConfigEvents ++ chainTypingsEvents "/proj" "/ext" ⟨some "1", none, none⟩ true) := by
    refine ⟨chainConfigEvents ++ chainTypingsEvents "/proj" "/ext" ⟨some "1", none, none⟩ true,
      Interleave.append_both _ _, ?_⟩
    have hcp : chainPrompt ⟨some "1", none, none⟩ "Darwin" "/proj" "/ext" none true = [] := rfl
    rw [hcp]
    exact Interleave.nil_left _
  exact (prompt_shown_iff_flag_unset _ _ _ _ _ _ _ _ hv).1 rfl

/-- Index of the first occurrence of an event in a trace (length if absent). -/
def firstAt : List Event → Event → Nat
  | [], _ => 0
  | x :: xs, e => if x = e then 0 else firstAt xs e + 1

/-- C6 counterexample: a completion order the bootstrapper admits in which
the typings mirror is the very first completed step, before the config
mutation (`allowJs`, `addExcludePaths`) has completed — the mirror and the
config mutation belong to two independent promise chains, so the claimed
three-step sequencing of Chain B is violated. -/
theorem chain_b_not_strictly_sequenced :
    IntellisenseTraces ⟨some "1", none, none⟩ "Darwin" "/proj" "/ext" none true true
      (chainTypingsEvents "/proj" "/ext" ⟨some "1", none, none⟩ true ++ chainConfigEvents) ∧
    ¬ (firstAt (chainTypingsEvents "/proj" "/ext" ⟨some "1", none, none⟩ true ++ chainConfigEvents)
         (Event.addExcludePaths ["node_modules"]) <
       firstAt (chainTypingsEvents "/proj" "/ext" ⟨some "1", none, none⟩ true ++ chainConfigEvents)
         (Event.copyRecursive ("/ext" ++ "/ReactTypings") ("/proj" ++ "/.vscode" ++ "/typings"))) := by
  constructor
  · refine ⟨chainTypingsEvents "/proj" "/ext" ⟨some "1", none, none⟩ true ++ chainConfigEvents,
      Interleave.append_swap _ _, ?_⟩
    have hcp : chainPrompt ⟨some "1", none, none⟩ "Darwin" "/proj" "/ext" none true = [] := rfl
    rw [hcp]
    exact Interleave.nil_left _
  · decide

/-- C6 amended: within Chain B each of the two sub-chains runs strictly in
its own order in every admitted completion order — in particular the
alternate-toolchain installation steps come only after the typings mirror,
and the exclusion append only after `allowJs` — but the typings mirror is not
ordered after the config mutation. -/
theorem chain_b_subchains_in_order (env : Env) (osType rootPath extensionRoot : String)
    (response : Option String) (typingsLibExists salsaLibExists : Bool) (trace : List Event)
    (h : IntellisenseTraces env osType rootPath extensionRoot response
      typingsLibExists salsaLibExists trace) :
    List.Sublist (chainTypingsEvents rootPath extensionRoot env typingsLibExists) trace ∧
    List.Sublist chainConfigEvents trace := by
  obtain ⟨bc, h1, h2⟩ := h
  exact ⟨h1.sublist_right.trans h2.sublist_right, h1.sublist_left.trans h2.sublist_right⟩

/-- Witness for the amended C6 at a concrete admitted completion order. -/
theorem chain_b_subchains_in_order_witness :
    List.Sublist (chainTypingsEvents "/proj" "/ext" ⟨some "1", none, none⟩ false)
      (chainConfigEvents ++ chainTypingsEvents "/proj" "/ext" ⟨some "1", none, none⟩ false) := by
  have hv : IntellisenseTraces ⟨some "1", none, none⟩ "Darwin" "/proj" "/ext" none false true
      (chainConfigEvents ++ chainTypingsEvents "/proj" "/ext" ⟨some "1", none, none⟩ false) := by
    refine ⟨chainConfigEvents ++ chainTypingsEvents "/proj" "/ext" ⟨some "1", none, none⟩ false,
      Interleave.append_both _ _, ?_⟩
    have hcp : chainPrompt ⟨some "1", none, none⟩ "Darwin" "/proj" "/ext" none true = [] := rfl
    rw [hcp]
    exact Interleave.nil_left _
  exact (chain_b_subchains_in_order _ _ _ _ _ _ _ _ hv).1

/-- The four command registrations of `activate`: fixed names, each
delegating to the like-named zero-argument method of the
`CommandPaletteHandler` constructed from the workspace root. -/
def registrationEvents (rootPath : String) : List Event :=
  [Event.registerCommand "reactNative.runAndroid" "runAndroid" rootPath,
   Event.registerCommand "reactNative.runIos" "runIos" rootPath,
   Event.registerCommand "reactNative.startPackager" "startPackager" rootPath,
   Event.registerCommand "reactNative.stopPackager" "stopPackager" rootPath]

/-- Whether an event is a command registration. -/
def isRegistration : Event → Bool
  | Event.registerCommand _ _ _ => true
  | _ => false

theorem filter_reg_install (rootPath extensionRoot : String) (env : Env) (b : Bool) :
    (installTypescriptNextTrace rootPath extensionRoot env b).filter isRegistration = [] := by
  cases b <;> rfl

theorem filter_reg_salsa (env : Env) (osType rootPath extensionRoot : String) (b : Bool) :
    (enableSalsaTrace env osType rootPath extensionRoot b).filter isRegistration = [] := by
  simp only [enableSalsaTrace]
  split
  · rfl
  · cases b <;> rfl

theorem filter_reg_prompt (env : Env) (osType rootPath extensionRoot : String)
    (response : Option String) (b : Bool) :
    (chainPrompt env osType rootPath extensionRoot response b).filter isRegistration = [] := by
  simp only [chainPrompt]
  split
  · rfl
  · split
    · exact filter_reg_salsa env osType rootPath extensionRoot b
    · rfl

theorem filter_reg_typings (rootPath extensionRoot : String) (env : Env) (b : Bool) :
    (chainTypingsEvents rootPath extensionRoot env b).filter isRegistration = [] := by
  cases b <;> rfl

theorem filter_reg_debugger (rootPath n v lp : String) (fs : FSState)
    (dirFault writeFault : Option String) :
    ((setupReactNativeDebuggerRun rootPath n v lp fs dirFault writeFault).2).filter
      isRegistration = [] := by
  cases dirFault <;> cases writeFault <;> rfl

/-- The possible full event traces of `activate`: the four registrations are
the synchronous part, so they come first; the applicability continuation
(`isReactNativeProject().then(...)`) completes afterwards, and only when it
resolved `true` does it push the `ReactDirManager` subscription and start the
debugger provisioner and the intellisense chains, whose completions
interleave freely. -/
def ActivationTraces (rootPath extensionRoot extensionName extensionVersion launcherPath : String)
    (env : Env) (osType : String) (response : Option String)
    (typingsLibExists salsaLibExists : Bool) (fs : FSState)
    (dirFault writeFault : Option String) (applicability : Option Bool)
    (trace : List Event) : Prop :=
  ∃ rest, trace = registrationEvents rootPath ++ rest ∧
    (applicability ≠ some true → rest = []) ∧
    (applicability = some true →
      ∃ itrace merged,
        IntellisenseTraces env osType rootPath extensionRoot response
          typingsLibExists salsaLibExists itrace ∧
        Interleave (setupReactNativeDebuggerRun rootPath extensionName extensionVersion
          launcherPath fs dirFault writeFault).2 itrace merged ∧
        rest = Event.pushSubscription "ReactDirManager" :: merged)

/-- C1: whatever the applicability predicate resolves to — and also when it
has not resolved at all — every trace of `activate` registers exactly the
four commands `reactNative.runAndroid`, `reactNative.runIos`,
`reactNative.startPackager`, `reactNative.stopPackager`, each delegating to
the like-named handler method on the handler built from the workspace root,
and these four registrations are the first four events, i.e. they complete
before the asynchronous continuation and hence before activation returns. -/
theorem activation_registers_four_commands
    (rootPath extensionRoot extensionName extensionVersion launcherPath : String)
    (env : Env) (osType : String) (response : Option String)
    (typingsLibExists salsaLibExists : Bool) (fs : FSState)
    (dirFault writeFault : Option String) (applicability : Option Bool)
    (trace : List Event)
    (h : ActivationTraces rootPath extensionRoot extensionName extensionVersion launcherPath
      env osType response typingsLibExists salsaLibExists fs dirFault writeFault
      applicability trace) :
    trace.take 4 = registrationEvents rootPath ∧
    trace.filter isRegistration = registrationEvents rootPath := by
  obtain ⟨rest, rfl, hnot, hyes⟩ := h
  have hrest : rest.filter isRegistration = [] := by
    by_cases happ : applicability = some true
    · obtain ⟨itrace, merged, hi, hm, rfl⟩ := hyes happ
      obtain ⟨bc, hb1, hb2⟩ := hi
      rw [List.filter_eq_nil_iff]
      intro a ha
      rcases List.mem_cons.1 ha with rfl | ha
      · decide
      · rcases (hm.mem_iff a).1 ha with hd | hi2
        · exact List.filter_eq_nil_iff.1
            (filter_reg_debugger rootPath extensionName extensionVersion launcherPath
              fs dirFault writeFault) a hd
        · rcases (hb2.mem_iff a).1 hi2 with hp | hbc
          · exact List.filter_eq_nil_iff.1
              (filter_reg_prompt env osType rootPath extensionRoot response salsaLibExists) a hp
          · rcases (hb1.mem_iff a).1 hbc with hc | ht
            · exact List.filter_eq_nil_iff.1
                (show chainConfigEvents.filter isRegistration = [] from rfl) a hc
            · exact List.filter_eq_nil_iff.1
                (filter_reg_typings rootPath extensionRoot env typingsLibExists) a ht
    · rw [hnot happ]
      rfl
  constructor
  · rw [show (4 : Nat) = (registrationEvents rootPath).length from rfl, List.take_left]
  · rw [List.filter_append, hrest, List.append_nil]
    rfl

/-- Witness for C1: applicability resolved `false` — the trace is exactly the
four registrations. -/
theorem activation_registers_four_commands_witness :
    (registrationEvents "/proj").take 4 = registrationEvents "/proj" ∧
    (registrationEvents "/proj").filter isRegistration = registrationEvents "/proj" := by
  have h : ActivationTraces "/proj" "/ext" "rn" "0.1.0" "/ext/launcher.js"
      ⟨none, none, none⟩ "Darwin" none true true ⟨[], []⟩ none none (some false)
      (registrationEvents "/proj") :=
    ⟨[], by simp, fun _ => rfl, fun hcontra => absurd hcontra (by decide)⟩
  exact activation_registers_four_commands _ _ _ _ _ _ _ _ _ _ _ _ _ _ _ h
